import Mathlib

/-!
Verification development for the storyboard / video creative-studio
orchestration core.  The definitions below are shallow embeddings of the
TypeScript source: data types mirror the exported `type` declarations,
remote-call outcomes are passed in as explicit oracle arguments, and each
state-update handler is embedded as a pure function on the scene / video
state lists it mutates.
-/

namespace Studio

/-- Mirrors the exported `StoryboardScene` type: `src` is the generated
image payload (absent when generation failed), `prompt` the exact prompt
text, `error` the optional error message, `isCameraAngleFor` the optional
index of the parent (root) scene.  `isGeneratingAngles` is the transient
UI flag the app-level `AppStoryboardScene` adds and that the angle-splice
handler writes. -/
structure StoryboardScene where
  src : Option String
  prompt : String
  error : Option String
  isCameraAngleFor : Option Nat
  isGeneratingAngles : Bool
deriving Repr, DecidableEq

/-- The `voiceoverMode` field of `VideoState` (either TTS or upload). -/
inductive VoiceMode where
  | tts
  | upload
deriving Repr, DecidableEq

/-- Mirrors the `VideoClip` record attached to a `VideoState`.  The opaque
provider job handle (`videoObject`) is modelled as an optional opaque
token. -/
structure VideoClip where
  videoUrl : Option String
  audioUrl : Option String
  videoObject : Option String
  audioBase64 : Option String
deriving Repr, DecidableEq

/-- Mirrors the `VideoState` type: per-scene video workflow status.  The
`voiceoverFile` browser `File` handle is modelled as an opaque optional
token. -/
structure VideoState where
  status : String
  clips : List VideoClip
  currentClipIndex : Nat
  error : Option String
  loadingMessage : String
  showScriptInput : Bool
  scriptPrompt : String
  voiceoverMode : VoiceMode
  voiceoverFile : Option Unit
  speaker : String
  cameraMovement : String
deriving Repr, DecidableEq

/-- Mirrors `getInitialVideoState()` in the app component. -/
def initialVideoState : VideoState :=
  { status := "idle", clips := [], currentClipIndex := 0, error := none,
    loadingMessage := "", showScriptInput := false, scriptPrompt := "",
    voiceoverMode := VoiceMode.tts, voiceoverFile := none,
    speaker := "Narrator", cameraMovement := "Static Hold" }

/-! ## Retry policy (`withRetry`) -/

/-- Outcome of one invocation of the wrapped zero-argument async
operation: either a success value or a thrown error message. -/
inductive CallOutcome (α : Type) where
  | success (v : α)
  | failed (msg : String)
deriving Repr, DecidableEq

/-- Observable trace of one `withRetry` execution: the settled result,
the number of invocations of the wrapped operation, and the list of
backoff delays (in seconds, as computed by `delaySeconds`; the source
multiplies by 1000 before passing to `setTimeout`). -/
structure RetryTrace (α : Type) where
  result : Except String α
  calls : Nat
  delays : List Nat
deriving Repr

/-- Mirrors `maxRetries = 3` in `withRetry`. -/
def maxRetries : Nat := 3

/-- Helper: does `l` start with `needle`? (used to model JavaScript
`String.prototype.includes`). -/
def charsHavePrefix : List Char → List Char → Bool
  | _, [] => true
  | [], _ :: _ => false
  | a :: as, b :: bs => a == b && charsHavePrefix as bs

/-- Helper: does `hay` contain `needle` as a contiguous run? -/
def charsHaveInfix (needle : List Char) : List Char → Bool
  | [] => needle.isEmpty
  | c :: rest => charsHavePrefix (c :: rest) needle || charsHaveInfix needle rest

/-- Models JavaScript `s.includes(sub)`. -/
def strIncludes (s sub : String) : Bool :=
  charsHaveInfix sub.toList s.toList

/-- Models JavaScript `s.toLowerCase()` (ASCII-adequate for the fixed
markers the source matches against). -/
def lowerStr (s : String) : String :=
  String.mk (s.toList.map Char.toLower)

/-- Mirrors the transient-failure classification in `withRetry`:
`errorMessage.includes('503') || errorMessage.toLowerCase().includes('overloaded')
|| errorMessage.includes('429')`. -/
def isRetryableMessage (msg : String) : Bool :=
  strIncludes msg "503"
    || strIncludes (lowerStr msg) "overloaded"
    || strIncludes msg "429"

/-- One step of the `while (attempt < maxRetries)` loop of `withRetry`.
`fuel` is the number of remaining loop iterations (`maxRetries - attempt`);
the fuel-exhausted branch corresponds to falling out of the loop, which
raises the terminal "API call failed after multiple retries." error.
`attempt` is the value of the `attempt` counter before the invocation;
`calls n` is the outcome of the (n+1)-th invocation of the operation. -/
def withRetryLoop (calls : Nat → CallOutcome α) : Nat → Nat → RetryTrace α
  | 0, _ => ⟨Except.error "API call failed after multiple retries.", 0, []⟩
  | fuel + 1, attempt =>
    match calls attempt with
    | CallOutcome.success v => ⟨Except.ok v, 1, []⟩
    | CallOutcome.failed msg =>
      if isRetryableMessage msg && attempt + 1 < maxRetries then
        let t := withRetryLoop calls fuel (attempt + 1)
        ⟨t.result, t.calls + 1, 2 ^ (attempt + 1) * 15 :: t.delays⟩
      else
        ⟨Except.error msg, 1, []⟩

/-- Mirrors `withRetry`: start with `attempt = 0` and a loop budget of
`maxRetries` iterations. -/
def withRetry (calls : Nat → CallOutcome α) : RetryTrace α :=
  withRetryLoop calls maxRetries 0

/-! ## Error normalizer (`parseErrorMessage` in `utils/errorUtils.ts`)

The source first attempts `JSON.parse` on the error message, so the
embedding carries a small JSON parser (values, objects, arrays, strings
with escapes, numbers with the strict JSON grammar).  Numbers keep their
raw text plus a zero flag, which is all the normalizer can observe
(truthiness and string coercion). -/

/-- JSON value, as produced by `JSON.parse`. -/
inductive Json where
  | null
  | bool (b : Bool)
  | num (isZero : Bool) (raw : String)
  | str (s : String)
  | arr (elems : List Json)
  | obj (fields : List (String × Json))
deriving Repr

/-- JSON whitespace. -/
def isJsonWs (c : Char) : Bool :=
  c == ' ' || c == '\t' || c == '\n' || c == '\r'

/-- Skip JSON whitespace. -/
def dropWs (cs : List Char) : List Char :=
  cs.dropWhile isJsonWs

/-- Hexadecimal digit value, for `\uXXXX` escapes. -/
def hexVal (c : Char) : Option Nat :=
  let n := c.toNat
  if 48 ≤ n ∧ n ≤ 57 then some (n - 48)
  else if 97 ≤ n ∧ n ≤ 102 then some (n - 87)
  else if 65 ≤ n ∧ n ≤ 70 then some (n - 55)
  else none

/-- The single-character JSON escapes (everything other than `\u`). -/
def escapeChar (c : Char) : Option Char :=
  if c = '"' ∨ c = '\\' ∨ c = '/' then some c
  else if c = 'b' then some '\x08'
  else if c = 'f' then some '\x0c'
  else if c = 'n' then some '\n'
  else if c = 'r' then some '\x0d'
  else if c = 't' then some '\t'
  else none

/-- Parse the body of a JSON string (the opening quote has already been
consumed); returns the decoded string and the remaining input.  `fuel`
bounds the number of consumed characters.  Raw control characters are
rejected, as in `JSON.parse`. -/
def parseJsonStringAux : Nat → List Char → Option (String × List Char)
  | 0, _ => none
  | fuel + 1, cs =>
    match cs with
    | [] => none
    | '"' :: rest => some ("", rest)
    | '\\' :: esc :: rest =>
      let cont := fun (c : Char) (rest' : List Char) =>
        (parseJsonStringAux fuel rest').map
          (fun sr => (String.mk (c :: sr.1.toList), sr.2))
      if esc = 'u' then
        match rest with
        | h1 :: h2 :: h3 :: h4 :: rest' =>
          match hexVal h1, hexVal h2, hexVal h3, hexVal h4 with
          | some a, some b, some c, some d =>
            cont (Char.ofNat (((a * 16 + b) * 16 + c) * 16 + d)) rest'
          | _, _, _, _ => none
        | _ => none
      else
        match escapeChar esc with
        | some c => cont c rest
        | none => none
    | c :: rest =>
      if c.toNat < 32 then none
      else
        (parseJsonStringAux fuel rest).map
          (fun sr => (String.mk (c :: sr.1.toList), sr.2))

/-- Take a non-empty run of decimal digits. -/
def parseDigits (cs : List Char) : Option (List Char × List Char) :=
  let ds := cs.takeWhile Char.isDigit
  if ds.isEmpty then none else some (ds, cs.drop ds.length)

/-- Parse a JSON number starting at `cs` (strict JSON grammar: optional
minus, integer part without a redundant leading zero, optional fraction,
optional exponent). -/
def parseJsonNumber (cs : List Char) : Option (Json × List Char) :=
  let signSplit : Bool × List Char :=
    match cs with
    | '-' :: r => (true, r)
    | _ => (false, cs)
  match parseDigits signSplit.2 with
  | none => none
  | some (ints, cs2) =>
    if 1 < ints.length && ints.head? == some '0' then none
    else
      let fracStep : Option (List Char × List Char) :=
        match cs2 with
        | '.' :: r =>
          match parseDigits r with
          | none => none
          | some (fs, r') => some (fs, r')
        | _ => some ([], cs2)
      match fracStep with
      | none => none
      | some (fracs, cs3) =>
        let expStep : Option (List Char) :=
          match cs3 with
          | e :: r =>
            if e == 'e' || e == 'E' then
              let r2 := match r with
                | s :: r' => if s == '+' || s == '-' then r' else r
                | [] => r
              match parseDigits r2 with
              | none => none
              | some (_, r3) => some r3
            else some cs3
          | [] => some cs3
        match expStep with
        | none => none
        | some cs4 =>
          let consumedLen := cs.length - cs4.length
          some (Json.num (ints.all (· == '0') && fracs.all (· == '0'))
                  (String.mk (cs.take consumedLen)), cs4)

/-- Parse the members of a JSON object (the opening brace has been
consumed and the object is known to be non-empty).  `pv` parses one JSON
value; `fuel` bounds the number of fields. -/
def parseMembersAux (pv : List Char → Option (Json × List Char))
    (ps : Nat → List Char → Option (String × List Char)) :
    Nat → List Char → Option (List (String × Json) × List Char)
  | 0, _ => none
  | fuel + 1, cs =>
    match dropWs cs with
    | '"' :: rest =>
      match ps (rest.length + 1) rest with
      | none => none
      | some (key, r1) =>
        match dropWs r1 with
        | ':' :: r2 =>
          match pv r2 with
          | none => none
          | some (v, r3) =>
            match dropWs r3 with
            | ',' :: r4 =>
              (parseMembersAux pv ps fuel r4).map
                (fun fr => ((key, v) :: fr.1, fr.2))
            | '}' :: r4 => some ([(key, v)], r4)
            | _ => none
        | _ => none
    | _ => none

/-- Parse the elements of a JSON array (the opening bracket has been
consumed and the array is known to be non-empty). -/
def parseElemsAux (pv : List Char → Option (Json × List Char)) :
    Nat → List Char → Option (List Json × List Char)
  | 0, _ => none
  | fuel + 1, cs =>
    match pv cs with
    | none => none
    | some (v, r1) =>
      match dropWs r1 with
      | ',' :: r2 =>
        (parseElemsAux pv fuel r2).map (fun er => (v :: er.1, er.2))
      | ']' :: r2 => some ([v], r2)
      | _ => none

/-- Parse one JSON value.  `fuel` bounds the nesting depth. -/
def parseJsonValue : Nat → List Char → Option (Json × List Char)
  | 0, _ => none
  | fuel + 1, cs =>
    let pv := parseJsonValue fuel
    match dropWs cs with
    | [] => none
    | c :: rest =>
      if c == '"' then
        (parseJsonStringAux (rest.length + 1) rest).map
          (fun sr => (Json.str sr.1, sr.2))
      else if c == '{' then
        match dropWs rest with
        | '}' :: r => some (Json.obj [], r)
        | _ =>
          (parseMembersAux pv parseJsonStringAux (rest.length + 1) rest).map
            (fun fr => (Json.obj fr.1, fr.2))
      else if c == '[' then
        match dropWs rest with
        | ']' :: r => some (Json.arr [], r)
        | _ =>
          (parseElemsAux pv (rest.length + 1) rest).map
            (fun er => (Json.arr er.1, er.2))
      else if c == 't' then
        match rest with
        | 'r' :: 'u' :: 'e' :: r => some (Json.bool true, r)
        | _ => none
      else if c == 'f' then
        match rest with
        | 'a' :: 'l' :: 's' :: 'e' :: r => some (Json.bool false, r)
        | _ => none
      else if c == 'n' then
        match rest with
        | 'u' :: 'l' :: 'l' :: r => some (Json.null, r)
        | _ => none
      else if c == '-' || c.isDigit then
        parseJsonNumber (c :: rest)
      else none

/-- Models `JSON.parse`: parse one value and require only trailing
whitespace after it. -/
def jsonParse (s : String) : Option Json :=
  let cs := s.toList
  match parseJsonValue (cs.length + 1) cs with
  | some (j, rest) => if (dropWs rest).isEmpty then some j else none
  | none => none

/-- Property access on a parsed JSON object: later duplicate keys
overwrite earlier ones, as in `JSON.parse`. -/
def objGet (fields : List (String × Json)) (key : String) : Option Json :=
  fields.foldl (fun acc kv => if kv.1 == key then some kv.2 else acc) none

/-- JavaScript truthiness of a JSON value. -/
def Json.truthy : Json → Bool
  | Json.null => false
  | Json.bool b => b
  | Json.num isZero _ => !isZero
  | Json.str s => !(s == "")
  | Json.arr _ => true
  | Json.obj _ => true

/-- JavaScript string coercion of a JSON value, fuelled so the recursion
through nested arrays stays structural (only reached by the normalizer on
the dead-in-practice path where `error.message` is a truthy non-string;
numbers coerce to their raw JSON text here). -/
def coerceFuel : Nat → Json → String
  | 0, _ => ""
  | fuel + 1, j =>
    match j with
    | Json.null => "null"
    | Json.bool b => if b then "true" else "false"
    | Json.num _ raw => raw
    | Json.str s => s
    | Json.arr elems => String.intercalate "," (elems.map (coerceFuel fuel))
    | Json.obj _ => "[object Object]"

/-- The default message of `parseErrorMessage`. -/
def defaultErrorMessage : String :=
  "An unexpected error occurred. Please check the console for details."

/-- The `try { JSON.parse(...) }` step of `parseErrorMessage`: returns
the nested `parsed.error.message` value when the message parses as JSON
and `parsed.error && parsed.error.message` holds (`parsed.error` must be
an object for `.message` to exist; the field must be truthy). -/
def jsonNestedErrorMessage (message : String) : Option Json :=
  match jsonParse message with
  | some (Json.obj fields) =>
    match objGet fields "error" with
    | some (Json.obj efields) =>
      match objGet efields "message" with
      | some m => if m.truthy then some m else none
      | none => none
    | _ => none
  | _ => none

/-- Mirrors `parseErrorMessage` in `utils/errorUtils.ts`.  `none` models
a thrown value that is not an `Error` instance; `some message` models an
`Error` with that message. -/
def parseErrorMessage (err : Option String) : String :=
  match err with
  | none => defaultErrorMessage
  | some message =>
    match jsonNestedErrorMessage message with
    | some m =>
      match m with
      | Json.str sm =>
        if strIncludes (lowerStr sm) "quota" then "Quota exceeded. " ++ sm
        else sm
      | _ => coerceFuel (message.length + 1) m
    | none =>
      let errorMessage := lowerStr message
      if strIncludes errorMessage "api key not valid" then
        "Invalid API Key. Please ensure your API key is correct and has the necessary permissions."
      else if strIncludes errorMessage "blocked" || strIncludes errorMessage "safety" then
        "Your prompt was blocked due to the content policy. Please modify your prompt and try again."
      else if strIncludes errorMessage "429" || strIncludes errorMessage "resource_exhausted"
          || strIncludes errorMessage "rate limit" then
        "You\x27ve exceeded your quota. Please check your plan and billing details, then try again."
      else if strIncludes errorMessage "503" || strIncludes errorMessage "unavailable"
          || strIncludes errorMessage "overloaded" then
        "The model is temporarily unavailable or overloaded. Please try again later."
      else if strIncludes errorMessage "requested entity was not found" then
        "API Key error. The selected API key may not have access to this model. Please try selecting your key again."
      else if message == "" then defaultErrorMessage
      else message

/-! ## Scene pipeline (`generatePromptsFromBase`, `generateSingleImage`,
`generateImagesFromPrompts`, `generateImageSet`)

Remote-call outcomes are oracle arguments; prompt-construction inputs
(idea text, genre, characters) shape only the instruction text sent to
the backend, so they appear as parameters that the structural result does
not depend on. -/

/-- Mirrors the `Character` type (the fields the embedded pipelines
read). -/
structure Character where
  id : Nat
  name : String
  description : Option String
  originalImageBase64 : Option String
  originalImageMimeType : Option String
deriving Repr, DecidableEq

/-- Outcome of the remote image-generation capability behind one
`generateSingleImage` call: an inline image payload, a success status
with no image payload, or a thrown error (`none` models a thrown
non-`Error` value). -/
inductive ImageCallOutcome where
  | image (src : String)
  | noImage
  | thrown (err : Option String)
deriving Repr, DecidableEq

/-- The fixed message `generateSingleImage` attaches when the model call
succeeds but carries no image payload (identical on both model paths). -/
def noImageDataMessage : String :=
  "The model returned a success status but no image data. This may be due to a safety filter or an issue with the complexity of the prompt. Please try a different prompt."

/-- The `(src, error)` pair `generateSingleImage` resolves with: it never
rejects — a thrown error is caught and converted through
`parseErrorMessage`. -/
def generateSingleImageResult (o : ImageCallOutcome) : Option String × Option String :=
  match o with
  | ImageCallOutcome.image src => (some src, none)
  | ImageCallOutcome.noImage => (none, some noImageDataMessage)
  | ImageCallOutcome.thrown e => (none, some (parseErrorMessage e))

/-- The scene node `generateImagesFromPrompts` pushes for one prompt. -/
def sceneOfOutcome (p : String) (o : ImageCallOutcome) : StoryboardScene :=
  { prompt := p, src := (generateSingleImageResult o).1,
    error := (generateSingleImageResult o).2,
    isCameraAngleFor := none, isGeneratingAngles := false }

/-- The `for` loop of `generateImagesFromPrompts`: returns the collected
scenes and the list of pacing delays (in milliseconds, one `delay(15000)`
after every non-final iteration).  `outcomes i` is the backend outcome of
the image call for prompt index `i`. -/
def generateImagesLoop (outcomes : Nat → ImageCallOutcome) :
    List String → Nat → List StoryboardScene × List Nat
  | [], _ => ([], [])
  | p :: rest, i =>
    let scene := sceneOfOutcome p (outcomes i)
    let r := generateImagesLoop outcomes rest (i + 1)
    (scene :: r.1, if rest.isEmpty then r.2 else 15000 :: r.2)

/-- Mirrors `generateImagesFromPrompts`. -/
def generateImagesFromPrompts (prompts : List String)
    (outcomes : Nat → ImageCallOutcome) : List StoryboardScene × List Nat :=
  generateImagesLoop outcomes prompts 0

/-- Mirrors the validation of `generatePromptsFromBase`: the model
response (`resp = none` models a malformed response — JSON parse failure
or a missing/non-array `prompts` key) must be a non-empty array of
prompt strings; `sceneCount` shapes only the instruction text and is
never checked against the returned length. -/
def generatePromptsFromBase (sceneCount : Nat) (resp : Option (List String)) :
    Except String (List String) :=
  match resp with
  | none => Except.error "AI failed to return a valid array of prompts."
  | some prompts =>
    if prompts.isEmpty then
      Except.error "AI failed to return a valid array of prompts."
    else
      Except.ok prompts
where
  /-- keep the unused bound in scope to mirror the source signature -/
  unusedCount : Nat := sceneCount

/-- Mirrors `generateImageSet`: script breakdown, then the per-prompt
image loop; a breakdown failure is normalized through
`parseErrorMessage` and rethrown. -/
def generateImageSet (sceneCount : Nat) (resp : Option (List String))
    (outcomes : Nat → ImageCallOutcome) : Except String (List StoryboardScene) :=
  match generatePromptsFromBase sceneCount resp with
  | Except.error e => Except.error (parseErrorMessage (some e))
  | Except.ok prompts => Except.ok (generateImagesFromPrompts prompts outcomes).1

/-- Mirrors the caller (`handleGenerateImage`): on success it stores the
storyboard together with
`new Array(result.storyboard.length).fill(null).map(() => getInitialVideoState())`. -/
def handleGenerateImageItem (storyboard : List StoryboardScene) :
    List StoryboardScene × List VideoState :=
  (storyboard, List.replicate storyboard.length initialVideoState)

/-! ## Scene-tree mutations (`handleDeleteScene`,
`handleConfirmAngleGeneration`, `handleExtendFromLastFrame`) -/

/-- `imageSet[j]?.isCameraAngleFor` (an out-of-range index reads as
`undefined`, i.e. `none`). -/
def parentAt (s : List StoryboardScene) (j : Nat) : Option Nat :=
  match s[j]? with
  | some sc => sc.isCameraAngleFor
  | none => none

/-- `scene.isCameraAngleFor === p` for the scene at index `j`. -/
def hasParent (s : List StoryboardScene) (j p : Nat) : Bool :=
  match s[j]? with
  | some sc => sc.isCameraAngleFor == some p
  | none => false

/-- The `initialIndicesToRemove` set of `handleDeleteScene`: the deleted
index, plus its parent when it is the parent's sole remaining
angle-child. -/
def initialIndicesToRemove (s : List StoryboardScene) (i : Nat) : List Nat :=
  match parentAt s i with
  | none => [i]
  | some p =>
    if (s.filter (fun sc => sc.isCameraAngleFor == some p)).length == 1 then
      [i, p]
    else [i]

/-- Membership in the `finalIndicesToRemove` set of `handleDeleteScene`:
the initial indices, plus every angle-child of an initial index that is a
root (an out-of-range initial index reads as a root, as in the source
optional-chaining check). -/
def isRemoved (s : List StoryboardScene) (i j : Nat) : Bool :=
  let init := initialIndicesToRemove s i
  init.contains j
    || init.any (fun p => (parentAt s p).isNone && hasParent s j p)

/-- The surviving old indices, in order (the filtering pass of
`handleDeleteScene`). -/
def keptIndices (s : List StoryboardScene) (i : Nat) : List Nat :=
  (List.range s.length).filter (fun j => !isRemoved s i j)

/-- `indexMap[j]` of `handleDeleteScene`: the new position of surviving
old index `j` (the number of surviving indices before it). -/
def newIndexOf (s : List StoryboardScene) (i j : Nat) : Nat :=
  ((List.range j).filter (fun k => !isRemoved s i k)).length

/-- The re-indexing pass of `handleDeleteScene`: a surviving scene whose
parent was removed becomes a root; one whose parent survived is remapped
through `indexMap`; a dangling out-of-range parent reference (absent from
`indexMap`) is kept unchanged. -/
def reindexScene (s : List StoryboardScene) (i : Nat) (sc : StoryboardScene) :
    StoryboardScene :=
  match sc.isCameraAngleFor with
  | none => sc
  | some p =>
    if isRemoved s i p then { sc with isCameraAngleFor := none }
    else if p < s.length then { sc with isCameraAngleFor := some (newIndexOf s i p) }
    else sc

/-- Mirrors the state update of `handleDeleteScene` (with the
`window.confirm` accepted): cascade removal, the parallel splice of the
video-state list, and parent-reference remapping.  When the scene does
not exist the handler returns the previous state unchanged. -/
def handleDeleteScene (s : List StoryboardScene) (v : List VideoState) (i : Nat) :
    List StoryboardScene × List VideoState :=
  match s[i]? with
  | none => (s, v)
  | some _ =>
    ((keptIndices s i).filterMap (fun j => (s[j]?).map (reindexScene s i)),
     (keptIndices s i).filterMap (fun j => v[j]?))

/-- The map pass of `handleConfirmAngleGeneration`: every scene whose
parent reference is strictly greater than `sceneIndex` has it bumped by
`m` (the number of new scenes), irrespective of the scene's own
position. -/
def bumpParentsAfter (sceneIndex m : Nat) (s : List StoryboardScene) :
    List StoryboardScene :=
  s.map (fun sc =>
    match sc.isCameraAngleFor with
    | some p =>
      if sceneIndex < p then { sc with isCameraAngleFor := some (p + m) } else sc
    | none => sc)

/-- The `splice(sceneIndex + 1, 0, ...)` pass of
`handleConfirmAngleGeneration`: insert the new scenes, each tagged with
`isCameraAngleFor := sceneIndex`, directly after position `sceneIndex` of
the bumped list. -/
def spliceAngles (s : List StoryboardScene) (sceneIndex : Nat)
    (newScenes : List StoryboardScene) : List StoryboardScene :=
  let updated := bumpParentsAfter sceneIndex newScenes.length s
  updated.take (sceneIndex + 1)
    ++ newScenes.map (fun sc => { sc with isCameraAngleFor := some sceneIndex })
    ++ updated.drop (sceneIndex + 1)

/-- Mirrors the success state update of `handleConfirmAngleGeneration`:
bump parent references past the root, splice the tagged new scenes at
`sceneIndex + 1`, splice the same number of fresh initial video states at
the same position, and clear the busy flag and error of the root. -/
def handleConfirmAngleGeneration (s : List StoryboardScene) (v : List VideoState)
    (sceneIndex : Nat) (newScenes : List StoryboardScene) :
    List StoryboardScene × List VideoState :=
  let spliced := spliceAngles s sceneIndex newScenes
  let finalScenes :=
    match spliced[sceneIndex]? with
    | some sc => spliced.set sceneIndex { sc with isGeneratingAngles := false, error := none }
    | none => spliced
  (finalScenes,
   v.take (sceneIndex + 1) ++ List.replicate newScenes.length initialVideoState
     ++ v.drop (sceneIndex + 1))

/-- The `lastChildIndex` scan of `handleExtendFromLastFrame`: the length
of the contiguous run of angle-children of `p` directly after it. -/
def contiguousChildCount (s : List StoryboardScene) (p : Nat) : Nat :=
  ((s.drop (p + 1)).takeWhile (fun sc => sc.isCameraAngleFor == some p)).length

/-- `lastChildIndex + 1` of `handleExtendFromLastFrame`. -/
def extendInsertionPoint (s : List StoryboardScene) (p : Nat) : Nat :=
  p + 1 + contiguousChildCount s p

/-- The new scene `handleExtendFromLastFrame` builds from the extracted
final frame. -/
def extendNewScene (frameBase64 : String) (sceneIndex : Nat) : StoryboardScene :=
  { src := some frameBase64,
    prompt := "Animation from the last frame of the previous scene.",
    error := none, isCameraAngleFor := some sceneIndex, isGeneratingAngles := false }

/-- Mirrors the state update of `handleExtendFromLastFrame`: splice the
new scene and a fresh initial video state at the insertion point.  Note
that, unlike deletion and angle insertion, no parent reference of any
pre-existing node is remapped. -/
def handleExtendFromLastFrame (s : List StoryboardScene) (v : List VideoState)
    (sceneIndex : Nat) (frameBase64 : String) :
    List StoryboardScene × List VideoState :=
  let ip := extendInsertionPoint s sceneIndex
  (s.take ip ++ extendNewScene frameBase64 sceneIndex :: s.drop ip,
   v.take ip ++ initialVideoState :: v.drop ip)

/-- Does index `p` currently hold a root node (a scene without a parent
reference)? -/
def isRootAt (s : List StoryboardScene) (p : Nat) : Bool :=
  match s[p]? with
  | some sc => sc.isCameraAngleFor.isNone
  | none => false

/-- The Scene-Tree shape invariant of the spec: every node carrying a
parent reference refers to a currently-existing root node (which also
forces tree depth exactly 2). -/
def treeInvariant (s : List StoryboardScene) : Bool :=
  s.all (fun sc =>
    match sc.isCameraAngleFor with
    | none => true
    | some p => isRootAt s p)

/-! ## Video assembly (`generateVideoFromScene`), audio branch -/

/-- The audio directive passed to `generateVideoFromScene` (the
`assignment` sub-field does not influence the audio-preparation result
and is omitted). -/
structure AudioOptions where
  mode : VoiceMode
  data : String
  mimeType : String
deriving Repr, DecidableEq

/-- The value the `audioDataPromise` IIFE of `generateVideoFromScene`
resolves with.  `speech` is the outcome of `generateSpeech` (a thrown
message, or a base64 payload / `null`); `makeUrl` is the outcome of
`base64ToBytes` + `URL.createObjectURL` on the payload.  Every failure is
caught and mapped to `(null, null)` — the promise never rejects. -/
def audioDataResult (audioOptions : Option AudioOptions)
    (speech : Except String (Option String)) (makeUrl : Except String String) :
    Option String × Option String :=
  match audioOptions with
  | none => (none, none)
  | some opts =>
    let audioBase64 : Except String (Option String) :=
      match opts.mode with
      | VoiceMode.upload => Except.ok (some opts.data)
      | VoiceMode.tts => if opts.data == "" then Except.ok none else speech
    match audioBase64 with
    | Except.error _ => (none, none)
    | Except.ok none => (none, none)
    | Except.ok (some b64) =>
      if b64 == "" then (none, none)
      else
        match makeUrl with
        | Except.error _ => (none, none)
        | Except.ok url => (some url, some b64)

/-- The resolved value of `generateVideoFromScene`. -/
structure FinalVideoResult where
  videoUrl : String
  audioUrl : Option String
  audioBase64 : Option String
deriving Repr, DecidableEq

/-- Mirrors `generateVideoFromScene`: reject on a missing scene image;
run the audio branch (which cannot reject); `video` is the outcome of
the submit / poll / download pipeline (its own thrown errors propagate);
on video success, combine with the audio pair. -/
def generateVideoFromScene (scene : StoryboardScene)
    (audioOptions : Option AudioOptions)
    (speech : Except String (Option String)) (makeUrl : Except String String)
    (video : Except String String) : Except String FinalVideoResult :=
  match scene.src with
  | none => Except.error "Cannot generate video from an empty or failed scene."
  | some _ =>
    match video with
    | Except.error e => Except.error e
    | Except.ok videoUrl =>
      let audio := audioDataResult audioOptions speech makeUrl
      Except.ok { videoUrl := videoUrl, audioUrl := audio.1, audioBase64 := audio.2 }

/-! ## Concrete fixtures used by examples, counterexamples and witnesses -/

/-- A root scene node with the given label as image payload and prompt. -/
def mkRootScene (label : String) : StoryboardScene :=
  { src := some label, prompt := label, error := none,
    isCameraAngleFor := none, isGeneratingAngles := false }

/-- An angle-child scene node referencing root index `p`. -/
def mkChildScene (label : String) (p : Nat) : StoryboardScene :=
  { src := some label, prompt := label, error := none,
    isCameraAngleFor := some p, isGeneratingAngles := false }

/-- The spec's 11-node deletion example: roots at 0-5, angle-children of
5 at 6 and 7, roots at 8 and 9, an angle-child of 9 at 10. -/
def exC2a : List StoryboardScene :=
  [mkRootScene "0", mkRootScene "1", mkRootScene "2", mkRootScene "3",
   mkRootScene "4", mkRootScene "5", mkChildScene "6" 5, mkChildScene "7" 5,
   mkRootScene "8", mkRootScene "9", mkChildScene "10" 9]

/-- A 5-node tree where index 2 is the sole angle-child of root 1. -/
def exC2b : List StoryboardScene :=
  [mkRootScene "0", mkRootScene "1", mkChildScene "2" 1, mkRootScene "3",
   mkChildScene "4" 3]

/-- A root with one pre-existing angle-child. -/
def exC3a : List StoryboardScene := [mkRootScene "a", mkChildScene "b" 0]

/-- A 5-node tree whose root at index 2 already has angle-children at 3
and 4. -/
def exC3b : List StoryboardScene :=
  [mkRootScene "0", mkRootScene "1", mkRootScene "2", mkChildScene "3" 2,
   mkChildScene "4" 2]

/-- The spec's 5-node camera-angle example tree (all roots, target at
index 2). -/
def exC3c : List StoryboardScene :=
  [mkRootScene "0", mkRootScene "1", mkRootScene "2", mkRootScene "3",
   mkRootScene "4"]

/-- A 3-node tree: two roots, the third node an angle-child of root 1. -/
def exC5 : List StoryboardScene :=
  [mkRootScene "a", mkRootScene "b", mkChildScene "c" 1]

/-! ## General list helper lemmas -/

/-- A filter and its complement split the length of a list. -/
theorem length_filter_add_length_filter_not (l : List α) (p : α → Bool) :
    (l.filter p).length + (l.filter (fun x => !p x)).length = l.length := by
  induction l with
  | nil => simp
  | cons x xs ih =>
    cases h : p x <;> (simp [List.filter_cons, h]; omega)

/-- Counting a disjunction of disjoint tests splits into a sum. -/
theorem length_filter_or_disjoint (l : List α) (a b : α → Bool)
    (h : ∀ x, a x = true → b x = false) :
    (l.filter (fun x => a x || b x)).length
      = (l.filter a).length + (l.filter b).length := by
  induction l with
  | nil => simp
  | cons x xs ih =>
    cases ha : a x
    · cases hb : b x <;> simp [List.filter_cons, ha, hb, ih] <;> omega
    · have hb := h x ha
      simp [List.filter_cons, ha, hb, ih]
      omega

/-- In `range n`, exactly one index is `BEq`-equal to `r < n`. -/
theorem length_filter_range_beq {r n : Nat} (h : r < n) :
    ((List.range n).filter (fun j => j == r)).length = 1 := by
  induction n with
  | zero => omega
  | succ n ih =>
    rw [List.range_succ, List.filter_append]
    rcases Nat.lt_or_ge r n with hr | hr
    · have hne : (n == r) = false := by simp; omega
      simp [ih hr, hne]
    · have hrn : r = n := by omega
      have hz : ((List.range n).filter (fun j => j == r)).length = 0 := by
        rw [List.length_eq_zero]
        apply List.filter_eq_nil_iff.mpr
        intro j hj
        have := List.mem_range.mp hj
        simp
        omega
      subst hrn
      simp [hz]

/-- Counting indices of `range s.length` that satisfy `hasParent s · r`
equals counting the scenes of `s` whose parent reference is `r`. -/
theorem length_filter_range_hasParent (s : List StoryboardScene) (r : Nat) :
    ((List.range s.length).filter (fun j => hasParent s j r)).length
      = (s.filter (fun sc => sc.isCameraAngleFor == some r)).length := by
  induction s with
  | nil => simp [hasParent]
  | cons x xs ih =>
    rw [List.length_cons, List.range_succ_eq_map, List.filter_cons]
    have hcomp : ∀ j : Nat, hasParent (x :: xs) (Nat.succ j) r = hasParent xs j r := by
      intro j
      simp [hasParent]
    have hmap :
        ((List.map Nat.succ (List.range xs.length)).filter
            (fun j => hasParent (x :: xs) j r)).length
          = ((List.range xs.length).filter (fun j => hasParent xs j r)).length := by
      rw [List.filter_map]
      simp only [List.length_map, Function.comp]
      congr 1
      apply List.filter_congr
      intro j _
      exact hcomp j
    have hhead : hasParent (x :: xs) 0 r = (x.isCameraAngleFor == some r) := by
      simp [hasParent]
    cases hx : x.isCameraAngleFor == some r <;>
      simp [List.filter_cons, hhead, hx, hmap, ih]

/-- Position of a kept index inside the filtered range: the index `j`
with `keep j` sits at the position given by the number of kept indices
before it. -/
theorem filter_range_getElem? (keep : Nat → Bool) :
    ∀ n j, j < n → keep j = true →
      ((List.range n).filter keep)[((List.range j).filter keep).length]? = some j := by
  intro n
  induction n with
  | zero => omega
  | succ n ih =>
    intro j hj hk
    rw [List.range_succ, List.filter_append]
    rcases Nat.lt_or_ge j n with hr | hr
    · have h1 := ih j hr hk
      have hlt : ((List.range j).filter keep).length
          < ((List.range n).filter keep).length := by
        rcases List.getElem?_eq_some.mp h1 with ⟨h, _⟩
        exact h
      rw [List.getElem?_append_left hlt]
      exact h1
    · have hjn : j = n := by omega
      subst hjn
      rw [List.getElem?_append_right (le_refl _)]
      simp [hk]

/-- `filterMap` over a list of always-`some` values reads like `map`. -/
theorem filterMap_getElem?_of_isSome (f : α → Option β) :
    ∀ (l : List α) (m : Nat), (∀ a ∈ l, (f a).isSome) →
      (l.filterMap f)[m]? = (l[m]?).bind f := by
  intro l
  induction l with
  | nil => intro m _; simp
  | cons a l ih =>
    intro m hall
    have ha : (f a).isSome := hall a (by simp)
    rcases Option.isSome_iff_exists.mp ha with ⟨b, hb⟩
    rw [List.filterMap_cons, hb]
    cases m with
    | zero => simp [hb]
    | succ m =>
      simp only [List.getElem?_cons_succ]
      exact ih m (fun x hx => hall x (by simp [hx]))

/-- `filterMap` over a list of always-`some` values preserves length. -/
theorem filterMap_length_of_isSome (f : α → Option β) :
    ∀ (l : List α), (∀ a ∈ l, (f a).isSome) → (l.filterMap f).length = l.length := by
  intro l
  induction l with
  | nil => intro _; simp
  | cons a l ih =>
    intro hall
    have ha : (f a).isSome := hall a (by simp)
    rcases Option.isSome_iff_exists.mp ha with ⟨b, hb⟩
    rw [List.filterMap_cons, hb]
    simp [ih (fun x hx => hall x (by simp [hx]))]

/-! ## Facts about `handleDeleteScene` -/

/-- Deleting a root yields the singleton initial removal set. -/
theorem initialIndices_of_root (s : List StoryboardScene) (r : Nat)
    (sc : StoryboardScene) (hr : s[r]? = some sc)
    (hroot : sc.isCameraAngleFor = none) :
    initialIndicesToRemove s r = [r] := by
  simp [initialIndicesToRemove, parentAt, hr, hroot]

/-- When deleting a root `r`, the removed indices are exactly `r` and its
angle-children. -/
theorem isRemoved_of_root (s : List StoryboardScene) (r : Nat)
    (sc : StoryboardScene) (hr : s[r]? = some sc)
    (hroot : sc.isCameraAngleFor = none) (j : Nat) :
    isRemoved s r j = ((j == r) || hasParent s j r) := by
  rw [isRemoved, initialIndices_of_root s r sc hr hroot]
  simp [parentAt, hr, hroot]
  by_cases h : j = r <;> simp [h]

/-- When deleting a root, the number of removed indices is one plus the
number of its angle-children. -/
theorem removedCount_of_root (s : List StoryboardScene) (r : Nat)
    (sc : StoryboardScene) (hr : s[r]? = some sc)
    (hroot : sc.isCameraAngleFor = none) :
    ((List.range s.length).filter (fun j => isRemoved s r j)).length
      = 1 + (s.filter (fun x => x.isCameraAngleFor == some r)).length := by
  have hrlt : r < s.length := (List.getElem?_eq_some.mp hr).1
  rw [List.filter_congr (fun j _ => isRemoved_of_root s r sc hr hroot j)]
  rw [length_filter_or_disjoint _ _ _ ?_]
  · rw [length_filter_range_beq hrlt, length_filter_range_hasParent]
  · intro j hj
    have hj' : j = r := by simpa using hj
    subst hj'
    simp [hasParent, hr, hroot]

/-- The kept indices are the complement of the removed ones. -/
theorem keptIndices_length (s : List StoryboardScene) (i : Nat) :
    (keptIndices s i).length
      = s.length - ((List.range s.length).filter (fun j => isRemoved s i j)).length := by
  have h := length_filter_add_length_filter_not (List.range s.length)
    (fun j => isRemoved s i j)
  rw [List.length_range] at h
  rw [keptIndices]
  omega

/-- The scene list produced by a deletion has one entry per kept index. -/
theorem handleDeleteScene_fst_length (s : List StoryboardScene)
    (v : List VideoState) (i : Nat) (hex : (s[i]?).isSome) :
    (handleDeleteScene s v i).1.length = (keptIndices s i).length := by
  rcases Option.isSome_iff_exists.mp hex with ⟨sc, hsc⟩
  rw [handleDeleteScene, hsc]
  apply filterMap_length_of_isSome
  intro j hj
  have hj' : j < s.length := List.mem_range.mp (List.mem_filter.mp hj).1
  simp [List.getElem?_eq_getElem hj']

/-- The video-state list produced by a deletion has one entry per kept
index, provided the two lists were aligned. -/
theorem handleDeleteScene_snd_length (s : List StoryboardScene)
    (v : List VideoState) (i : Nat) (hex : (s[i]?).isSome)
    (hlen : v.length = s.length) :
    (handleDeleteScene s v i).2.length = (keptIndices s i).length := by
  rcases Option.isSome_iff_exists.mp hex with ⟨sc, hsc⟩
  rw [handleDeleteScene, hsc]
  apply filterMap_length_of_isSome
  intro j hj
  have hj' : j < v.length := by
    rw [hlen]
    exact List.mem_range.mp (List.mem_filter.mp hj).1
  simp [List.getElem?_eq_getElem hj']

/-- Deletion remaps every surviving parent reference to the parent's new
position: the surviving scene that was at old index `j` (now at position
`newIndexOf s r j`) and referenced a surviving parent `p` now references
`newIndexOf s r p`. -/
theorem handleDeleteScene_remap (s : List StoryboardScene) (v : List VideoState)
    (r j p : Nat) (scj : StoryboardScene) (hex : (s[r]?).isSome)
    (hj : s[j]? = some scj) (hkj : isRemoved s r j = false)
    (hp : scj.isCameraAngleFor = some p) (hkp : isRemoved s r p = false)
    (hpl : p < s.length) :
    (handleDeleteScene s v r).1[newIndexOf s r j]?
      = some { scj with isCameraAngleFor := some (newIndexOf s r p) } := by
  rcases Option.isSome_iff_exists.mp hex with ⟨sc, hsc⟩
  have hjl : j < s.length := (List.getElem?_eq_some.mp hj).1
  rw [handleDeleteScene, hsc]
  rw [filterMap_getElem?_of_isSome _ _ _ ?_]
  · have hpos : (keptIndices s r)[newIndexOf s r j]? = some j := by
      rw [keptIndices, newIndexOf]
      exact filter_range_getElem? (fun k => !isRemoved s r k) s.length j hjl
        (by simp [hkj])
    rw [hpos]
    simp [Option.bind, hj, reindexScene, hp, hkp, hpl]
  · intro a ha
    have ha' : a < s.length := List.mem_range.mp (List.mem_filter.mp ha).1
    simp [List.getElem?_eq_getElem ha']

/-- Deleting the sole remaining angle-child of a root removes exactly two
nodes (the child and its root). -/
theorem handleDeleteScene_soleChild_length (s : List StoryboardScene)
    (v : List VideoState) (c p : Nat) (scc scp : StoryboardScene)
    (hc : s[c]? = some scc) (hcp : scc.isCameraAngleFor = some p)
    (hpp : s[p]? = some scp) (hproot : scp.isCameraAngleFor = none)
    (hcount : (s.filter (fun x => x.isCameraAngleFor == some p)).length = 1) :
    (handleDeleteScene s v c).1.length = s.length - 2 := by
  have hcl : c < s.length := (List.getElem?_eq_some.mp hc).1
  have hpl : p < s.length := (List.getElem?_eq_some.mp hpp).1
  have hcne : c ≠ p := by
    intro h
    subst h
    rw [hc] at hpp
    cases hpp
    rw [hcp] at hproot
    cases hproot
  have hinit : initialIndicesToRemove s c = [c, p] := by
    simp [initialIndicesToRemove, parentAt, hc, hcp, hcount]
  -- the unique scene with parent p is the one at index c
  have huniq : ∀ j, j < s.length → hasParent s j p = true → j = c := by
    have h1 : ((List.range s.length).filter (fun j => hasParent s j p)).length = 1 := by
      rw [length_filter_range_hasParent, hcount]
    rcases List.length_eq_one.mp h1 with ⟨x, hx⟩
    have hcmem : c ∈ (List.range s.length).filter (fun j => hasParent s j p) := by
      apply List.mem_filter.mpr
      refine ⟨List.mem_range.mpr hcl, ?_⟩
      simp [hasParent, hc, hcp]
    intro j hjl hjp
    have hjmem : j ∈ (List.range s.length).filter (fun j => hasParent s j p) := by
      apply List.mem_filter.mpr
      exact ⟨List.mem_range.mpr hjl, hjp⟩
    rw [hx] at hcmem hjmem
    have h2 := List.mem_singleton.mp hcmem
    have h3 := List.mem_singleton.mp hjmem
    omega
  have hrem : ∀ j, j < s.length →
      isRemoved s c j = ((j == c) || (j == p)) := by
    intro j hjl
    rw [isRemoved, hinit]
    have hpac : parentAt s c = some p := by simp [parentAt, hc, hcp]
    have hpap : parentAt s p = none := by simp [parentAt, hpp, hproot]
    simp only [List.contains_cons, List.contains_nil, List.any_cons, List.any_nil,
      hpac, hpap, Option.isNone_some, Option.isNone_none, Bool.false_and,
      Bool.true_and, Bool.or_false, Bool.false_or]
    cases hjp : hasParent s j p
    · simp
    · have := huniq j hjl hjp
      subst this
      simp
  have hexc : (s[c]?).isSome := by simp [hc]
  rw [handleDeleteScene_fst_length s v c hexc, keptIndices_length]
  have hcnt : ((List.range s.length).filter (fun j => isRemoved s c j)).length = 2 := by
    rw [List.filter_congr (fun j hj => hrem j (List.mem_range.mp hj))]
    rw [length_filter_or_disjoint _ _ _ ?_]
    · rw [length_filter_range_beq hcl, length_filter_range_beq hpl]
    · intro j hj
      have : j = c := by simpa using hj
      subst this
      simp
      omega
  omega

/-! ## Facts about the angle splice and the extend splice -/

/-- The angle splice grows the scene list by the number of new scenes. -/
theorem handleConfirmAngle_fst_length (s : List StoryboardScene)
    (v : List VideoState) (i : Nat) (nw : List StoryboardScene) :
    (handleConfirmAngleGeneration s v i nw).1.length = s.length + nw.length := by
  have hsp : (spliceAngles s i nw).length = s.length + nw.length := by
    simp [spliceAngles, bumpParentsAfter, List.length_take, List.length_drop]
    omega
  rw [handleConfirmAngleGeneration]
  cases h : (spliceAngles s i nw)[i]? <;> simp [h, List.length_set, hsp]

/-- The angle splice grows the video-state list by the same count. -/
theorem handleConfirmAngle_snd_length (s : List StoryboardScene)
    (v : List VideoState) (i : Nat) (nw : List StoryboardScene) :
    (handleConfirmAngleGeneration s v i nw).2.length = v.length + nw.length := by
  simp [handleConfirmAngleGeneration, List.length_take, List.length_drop]
  omega

/-- The extend splice grows the scene list by one. -/
theorem handleExtend_fst_length (s : List StoryboardScene) (v : List VideoState)
    (i : Nat) (f : String) :
    (handleExtendFromLastFrame s v i f).1.length = s.length + 1 := by
  simp [handleExtendFromLastFrame, List.length_take, List.length_drop]
  omega

/-- The extend splice grows the video-state list by one. -/
theorem handleExtend_snd_length (s : List StoryboardScene) (v : List VideoState)
    (i : Nat) (f : String) :
    (handleExtendFromLastFrame s v i f).2.length = v.length + 1 := by
  simp [handleExtendFromLastFrame, List.length_take, List.length_drop]
  omega

/-! ## Facts about the image-generation loop -/

/-- Closed form of the per-scene loop: the scene at position `j` is built
from prompt `j` and the outcome of call `k + j` alone. -/
theorem generateImagesLoop_getElem (outcomes : Nat → ImageCallOutcome) :
    ∀ (ps : List String) (k j : Nat),
      (generateImagesLoop outcomes ps k).1[j]?
        = (ps[j]?).map (fun p => sceneOfOutcome p (outcomes (k + j))) := by
  intro ps
  induction ps with
  | nil => intro k j; simp [generateImagesLoop]
  | cons p rest ih =>
    intro k j
    cases j with
    | zero => simp [generateImagesLoop]
    | succ j =>
      have hadd : k + 1 + j = k + (j + 1) := by omega
      simp only [generateImagesLoop, List.getElem?_cons_succ]
      rw [ih (k + 1) j, hadd]

/-- The loop produces one scene per prompt. -/
theorem generateImagesLoop_length (outcomes : Nat → ImageCallOutcome) :
    ∀ (ps : List String) (k : Nat),
      (generateImagesLoop outcomes ps k).1.length = ps.length := by
  intro ps
  induction ps with
  | nil => intro k; simp [generateImagesLoop]
  | cons p rest ih =>
    intro k
    simp [generateImagesLoop, ih (k + 1)]

/-- The loop emits exactly one fixed 15-second pause between consecutive
calls (none after the final call). -/
theorem generateImagesLoop_delays (outcomes : Nat → ImageCallOutcome) :
    ∀ (ps : List String) (k : Nat),
      (generateImagesLoop outcomes ps k).2
        = List.replicate (ps.length - 1) 15000 := by
  intro ps
  induction ps with
  | nil => intro k; simp [generateImagesLoop]
  | cons p rest ih =>
    intro k
    cases rest with
    | nil => simp [generateImagesLoop]
    | cons q t =>
      rw [show (generateImagesLoop outcomes (p :: q :: t) k).2
          = 15000 :: (generateImagesLoop outcomes (q :: t) (k + 1)).2 from rfl]
      rw [ih (k + 1)]
      simp [List.replicate_succ]

/-! ## Facts about the retry loop -/

/-- The loop invokes the operation at most once per unit of fuel. -/
theorem withRetryLoop_calls_le (calls : Nat → CallOutcome α) :
    ∀ fuel attempt, (withRetryLoop calls fuel attempt).calls ≤ fuel := by
  intro fuel
  induction fuel with
  | zero => intro attempt; simp [withRetryLoop]
  | succ fuel ih =>
    intro attempt
    rw [withRetryLoop]
    cases calls attempt with
    | success v => simp
    | failed msg =>
      by_cases h : (isRetryableMessage msg && decide (attempt + 1 < maxRetries)) = true
      · simp [h]
        have := ih (attempt + 1)
        omega
      · simp [h]

/-- With positive fuel the loop invokes the operation at least once. -/
theorem withRetryLoop_calls_pos (calls : Nat → CallOutcome α) :
    ∀ fuel attempt, 0 < fuel → 1 ≤ (withRetryLoop calls fuel attempt).calls := by
  intro fuel
  cases fuel with
  | zero => intro attempt h; omega
  | succ fuel =>
    intro attempt _
    rw [withRetryLoop]
    cases calls attempt with
    | success v => simp
    | failed msg =>
      by_cases h : (isRetryableMessage msg && decide (attempt + 1 < maxRetries)) = true
      · simp [h]
      · simp [h]

/-! ## Facts about the position of nodes after the angle splice -/

/-- The bumped list is a `map` and keeps length. -/
theorem bumpParentsAfter_length (r m : Nat) (s : List StoryboardScene) :
    (bumpParentsAfter r m s).length = s.length := by
  simp [bumpParentsAfter]

/-- The k-th new scene lands at position `r + 1 + k` of the splice,
tagged with parent reference `r`. -/
theorem spliceAngles_getElem?_new (s : List StoryboardScene) (r : Nat)
    (nw : List StoryboardScene) (k : Nat) (sc : StoryboardScene)
    (hr : r < s.length) (hk : nw[k]? = some sc) :
    (spliceAngles s r nw)[r + 1 + k]?
      = some { sc with isCameraAngleFor := some r } := by
  have hkl : k < nw.length := (List.getElem?_eq_some.mp hk).1
  have htake : ((bumpParentsAfter r nw.length s).take (r + 1)).length = r + 1 := by
    rw [List.length_take, bumpParentsAfter_length]
    omega
  rw [spliceAngles]
  rw [List.getElem?_append_left (by rw [List.length_append, htake]; simp; omega)]
  rw [List.getElem?_append_right (by rw [htake]; omega)]
  rw [htake]
  have hidx : r + 1 + k - (r + 1) = k := by omega
  rw [hidx]
  rw [List.getElem?_map, hk]
  rfl

/-- A pre-existing node at old index `j > r` sits at `j + m` after the
splice, with its parent reference bumped exactly when it exceeded `r`. -/
theorem spliceAngles_getElem?_old_after (s : List StoryboardScene) (r : Nat)
    (nw : List StoryboardScene) (j : Nat) (sc : StoryboardScene)
    (hj : s[j]? = some sc) (hrj : r < j) :
    (spliceAngles s r nw)[j + nw.length]?
      = some (match sc.isCameraAngleFor with
          | some p =>
            if r < p then { sc with isCameraAngleFor := some (p + nw.length) }
            else sc
          | none => sc) := by
  have hjl : j < s.length := (List.getElem?_eq_some.mp hj).1
  have htake : ((bumpParentsAfter r nw.length s).take (r + 1)).length = r + 1 := by
    rw [List.length_take, bumpParentsAfter_length]
    omega
  have hlen : ((bumpParentsAfter r nw.length s).take (r + 1)
      ++ nw.map (fun sc : StoryboardScene =>
          { sc with isCameraAngleFor := some r })).length
      = r + 1 + nw.length := by
    rw [List.length_append, htake, List.length_map]
  rw [spliceAngles]
  rw [List.getElem?_append_right (by rw [hlen]; omega)]
  rw [hlen]
  have hidx : j + nw.length - (r + 1 + nw.length) = j - (r + 1) := by omega
  rw [hidx, List.getElem?_drop]
  have hidx2 : r + 1 + (j - (r + 1)) = j := by omega
  rw [hidx2, bumpParentsAfter, List.getElem?_map, hj]
  rfl

/-- Positions other than the root index read straight through the final
busy-flag/error write-back of the angle handler. -/
theorem handleConfirmAngle_fst_getElem?_ne (s : List StoryboardScene)
    (v : List VideoState) (r : Nat) (nw : List StoryboardScene) (q : Nat)
    (hq : r ≠ q) :
    (handleConfirmAngleGeneration s v r nw).1[q]? = (spliceAngles s r nw)[q]? := by
  simp only [handleConfirmAngleGeneration]
  cases h : (spliceAngles s r nw)[r]? with
  | none => simp [h]
  | some sc => simp [h, List.getElem?_set, hq]

/-! ## Claims -/

/-- C6: `withRetry` invokes the wrapped operation at least once and at
most 3 times; a failure whose message contains "503", "overloaded"
(case-insensitively) or "429" below the 3-attempt ceiling waits
`2^attempt × 15` seconds (30 s after the first failure, 60 s after the
second) and retries, so an operation failing transiently on its first two
invocations and succeeding on the third resolves with that success after
exactly 3 invocations and delays of 30 s then 60 s, while a
non-transient failure rejects after exactly 1 invocation with no delay. -/
theorem claimC6_retryPolicy :
    (∀ (α : Type) (calls : Nat → CallOutcome α),
      1 ≤ (withRetry calls).calls ∧ (withRetry calls).calls ≤ 3)
    ∧ (∀ (α : Type) (v : α) (m0 m1 : String) (calls : Nat → CallOutcome α),
        calls 0 = CallOutcome.failed m0 → calls 1 = CallOutcome.failed m1 →
        calls 2 = CallOutcome.success v →
        isRetryableMessage m0 = true → isRetryableMessage m1 = true →
        withRetry calls = ⟨Except.ok v, 3, [30, 60]⟩)
    ∧ (∀ (α : Type) (msg : String) (calls : Nat → CallOutcome α),
        calls 0 = CallOutcome.failed msg → isRetryableMessage msg = false →
        withRetry calls = ⟨Except.error msg, 1, []⟩)
    ∧ (∀ msg : String, strIncludes msg "503" = true → isRetryableMessage msg = true) := by
  refine ⟨?_, ?_, ?_, ?_⟩
  · intro α calls
    exact ⟨withRetryLoop_calls_pos calls maxRetries 0 (by norm_num [maxRetries]),
      withRetryLoop_calls_le calls maxRetries 0⟩
  · intro α v m0 m1 calls h0 h1 h2 hr0 hr1
    simp [withRetry, withRetryLoop, maxRetries, h0, h1, h2, hr0, hr1]
  · intro α msg calls h0 hr0
    simp [withRetry, withRetryLoop, maxRetries, h0, hr0]
  · intro msg h
    simp [isRetryableMessage, h]

/-- Witness for C6 at a concrete operation: two transient "503" failures
followed by a success resolve as that success after 3 invocations and
delays of 30 s and 60 s. -/
theorem claimC6_witness :
    withRetry (fun n => if n < 2 then CallOutcome.failed "503"
      else CallOutcome.success (42 : Nat)) = ⟨Except.ok 42, 3, [30, 60]⟩ :=
  claimC6_retryPolicy.2.1 Nat 42 "503" "503"
    (fun n => if n < 2 then CallOutcome.failed "503" else CallOutcome.success 42)
    (by decide) (by decide) (by decide) (by decide) (by decide)

/-- C7 counterexample: with the wrapped operation failing on all 3
attempts with the transient message "503", `withRetry` rejects with that
original "503" error, not with the terminal
"API call failed after multiple retries." message the claim states. -/
theorem claimC7_counterexample :
    (withRetry (fun _ => (CallOutcome.failed "503" : CallOutcome Nat))).result
      = Except.error "503"
    ∧ "503" ≠ "API call failed after multiple retries." :=
  ⟨rfl, by decide⟩

/-- C7 (amended): when the wrapped operation fails on all 3 attempts
(the first two classified transient), `withRetry` rejects with the third
attempt's own error after delays of 30 s and 60 s — the terminal
"API call failed after multiple retries." branch is unreachable — and in
every case the settled result is either a success value or exactly the
error thrown by one of the at most 3 invocations, propagated unchanged. -/
theorem claimC7_amended :
    (∀ (α : Type) (m0 m1 m2 : String) (calls : Nat → CallOutcome α),
      calls 0 = CallOutcome.failed m0 → calls 1 = CallOutcome.failed m1 →
      calls 2 = CallOutcome.failed m2 →
      isRetryableMessage m0 = true → isRetryableMessage m1 = true →
      withRetry calls = ⟨Except.error m2, 3, [30, 60]⟩)
    ∧ (∀ (α : Type) (calls : Nat → CallOutcome α),
        (∃ v, (withRetry calls).result = Except.ok v)
        ∨ (∃ i msg, i < 3 ∧ calls i = CallOutcome.failed msg ∧
            (withRetry calls).result = Except.error msg)) := by
  constructor
  · intro α m0 m1 m2 calls h0 h1 h2 hr0 hr1
    simp [withRetry, withRetryLoop, maxRetries, h0, h1, h2, hr0, hr1]
  · intro α calls
    cases h0 : calls 0 with
    | success v =>
      exact Or.inl ⟨v, by simp [withRetry, withRetryLoop, maxRetries, h0]⟩
    | failed m0 =>
      by_cases hr0 : isRetryableMessage m0 = true
      · cases h1 : calls 1 with
        | success v =>
          exact Or.inl ⟨v, by simp [withRetry, withRetryLoop, maxRetries, h0, hr0, h1]⟩
        | failed m1 =>
          by_cases hr1 : isRetryableMessage m1 = true
          · cases h2 : calls 2 with
            | success v =>
              exact Or.inl ⟨v, by
                simp [withRetry, withRetryLoop, maxRetries, h0, hr0, h1, hr1, h2]⟩
            | failed m2 =>
              exact Or.inr ⟨2, m2, by omega, h2, by
                simp [withRetry, withRetryLoop, maxRetries, h0, hr0, h1, hr1, h2]⟩
          · exact Or.inr ⟨1, m1, by omega, h1, by
              simp [withRetry, withRetryLoop, maxRetries, h0, hr0, h1, hr1]⟩
      · exact Or.inr ⟨0, m0, by omega, h0, by
          simp [withRetry, withRetryLoop, maxRetries, h0, hr0]⟩

/-- Witness for C7 (amended) at a concrete operation failing on all 3
attempts: the result carries the third attempt's error. -/
theorem claimC7_witness :
    withRetry (fun n => (CallOutcome.failed (if n == 2 then "last 503" else "503")
      : CallOutcome Nat)) = ⟨Except.error "last 503", 3, [30, 60]⟩ :=
  claimC7_amended.1 Nat "503" "503" "last 503"
    (fun n => CallOutcome.failed (if n == 2 then "last 503" else "503"))
    (by decide) (by decide) (by decide) (by decide) (by decide)

/-- C8: `parseErrorMessage` checks for a JSON-shaped message before
substring matching (a JSON message whose nested text contains a
transient marker still takes the JSON path); the quota JSON input yields
an output starting with "Quota exceeded."; the safety-block input yields
the fixed content-policy sentence; and a non-empty non-JSON message that
matches none of the known substrings is returned verbatim. -/
theorem claimC8_errorNormalizer :
    (charsHavePrefix (parseErrorMessage
        (some "\x7b\"error\":\x7b\"message\":\"quota exceeded for project\"\x7d\x7d")).toList
        "Quota exceeded.".toList = true)
    ∧ parseErrorMessage (some "blocked by safety settings")
        = "Your prompt was blocked due to the content policy. Please modify your prompt and try again."
    ∧ parseErrorMessage (some "\x7b\"error\":\x7b\"message\":\"model overloaded\"\x7d\x7d")
        = "model overloaded"
    ∧ (∀ msg : String, jsonParse msg = none → msg ≠ "" →
        strIncludes (lowerStr msg) "api key not valid" = false →
        strIncludes (lowerStr msg) "blocked" = false →
        strIncludes (lowerStr msg) "safety" = false →
        strIncludes (lowerStr msg) "429" = false →
        strIncludes (lowerStr msg) "resource_exhausted" = false →
        strIncludes (lowerStr msg) "rate limit" = false →
        strIncludes (lowerStr msg) "503" = false →
        strIncludes (lowerStr msg) "unavailable" = false →
        strIncludes (lowerStr msg) "overloaded" = false →
        strIncludes (lowerStr msg) "requested entity was not found" = false →
        parseErrorMessage (some msg) = msg) := by
  refine ⟨rfl, rfl, rfl, ?_⟩
  intro msg hjson hne h1 h2 h3 h4 h5 h6 h7 h8 h9 h10
  have hnested : jsonNestedErrorMessage msg = none := by
    rw [jsonNestedErrorMessage, hjson]
  simp only [parseErrorMessage, hnested]
  simp [h1, h2, h3, h4, h5, h6, h7, h8, h9, h10, hne]

/-- Witness for C8 at a concrete non-JSON, marker-free message: the
output is the message itself. -/
theorem claimC8_witness :
    parseErrorMessage (some "Something odd happened") = "Something odd happened" :=
  claimC8_errorNormalizer.2.2.2 "Something odd happened" rfl (by decide)
    rfl rfl rfl rfl rfl rfl rfl rfl rfl rfl

/-- C9: the per-scene loop never aborts (one scene per prompt, in prompt
order); a thrown image-generation failure at position `i` yields a scene
with `src = none` and a populated normalized error there, while every
other position's scene is untouched by that outcome; and the loop emits
exactly one unconditional 15-second pause (15000 ms) between consecutive
calls, with none after the final one. -/
theorem claimC9_imageLoop :
    (∀ (prompts : List String) (outcomes : Nat → ImageCallOutcome),
      (generateImagesFromPrompts prompts outcomes).1.length = prompts.length)
    ∧ (∀ (prompts : List String) (outcomes : Nat → ImageCallOutcome) (i : Nat)
        (e : Option String), outcomes i = ImageCallOutcome.thrown e →
        (generateImagesFromPrompts prompts outcomes).1[i]?
          = (prompts[i]?).map (fun p =>
              { prompt := p, src := none, error := some (parseErrorMessage e),
                isCameraAngleFor := none, isGeneratingAngles := false }))
    ∧ (∀ (prompts : List String) (o o' : Nat → ImageCallOutcome) (i j : Nat),
        (∀ k, k ≠ i → o k = o' k) → j ≠ i →
        (generateImagesFromPrompts prompts o).1[j]?
          = (generateImagesFromPrompts prompts o').1[j]?)
    ∧ (∀ (prompts : List String) (outcomes : Nat → ImageCallOutcome),
        (generateImagesFromPrompts prompts outcomes).2
          = List.replicate (prompts.length - 1) 15000) := by
  refine ⟨?_, ?_, ?_, ?_⟩
  · intro prompts outcomes
    exact generateImagesLoop_length outcomes prompts 0
  · intro prompts outcomes i e he
    rw [generateImagesFromPrompts, generateImagesLoop_getElem]
    cases hp : prompts[i]? with
    | none => simp
    | some p =>
      simp [sceneOfOutcome, generateSingleImageResult, Nat.zero_add, he]
  · intro prompts o o' i j hagree hne
    rw [generateImagesFromPrompts, generateImagesFromPrompts,
      generateImagesLoop_getElem, generateImagesLoop_getElem]
    rw [hagree (0 + j) (by omega)]
  · intro prompts outcomes
    exact generateImagesLoop_delays outcomes prompts 0

/-- Witness for C9 at a concrete three-prompt run whose second call
throws: the middle scene carries the normalized error, the others their
images, and the pacing trace is two 15-second pauses. -/
theorem claimC9_witness :
    (generateImagesFromPrompts ["a", "b", "c"]
        (fun i => if i == 1 then ImageCallOutcome.thrown (some "boom")
          else ImageCallOutcome.image "img")).1[1]?
      = some { prompt := "b", src := none,
               error := some (parseErrorMessage (some "boom")),
               isCameraAngleFor := none, isGeneratingAngles := false } := by
  have h := claimC9_imageLoop.2.1 ["a", "b", "c"]
    (fun i => if i == 1 then ImageCallOutcome.thrown (some "boom")
      else ImageCallOutcome.image "img") 1 (some "boom") (by decide)
  rw [h]
  rfl

/-- C10: in `generateVideoFromScene`, failure of the audio-preparation
branch (speech synthesis throwing, or decoding/URL creation of the audio
payload throwing) never rejects the overall result: when the video
pipeline succeeds, the promise resolves with `audioUrl` and `audioBase64`
both null. -/
theorem claimC10_audioIsolation :
    (∀ (scene : StoryboardScene) (opts : AudioOptions) (e : String)
        (makeUrl : Except String String) (url img : String),
      scene.src = some img → opts.mode = VoiceMode.tts → opts.data ≠ "" →
      generateVideoFromScene scene (some opts) (Except.error e) makeUrl
          (Except.ok url)
        = Except.ok ⟨url, none, none⟩)
    ∧ (∀ (scene : StoryboardScene) (opts : AudioOptions)
        (speech : Except String (Option String)) (e url img : String),
        scene.src = some img → opts.mode = VoiceMode.upload →
        generateVideoFromScene scene (some opts) speech (Except.error e)
            (Except.ok url)
          = Except.ok ⟨url, none, none⟩)
    ∧ (∀ (scene : StoryboardScene) (opts : AudioOptions) (b64 e url img : String),
        scene.src = some img → opts.mode = VoiceMode.tts → opts.data ≠ "" →
        generateVideoFromScene scene (some opts) (Except.ok (some b64))
            (Except.error e) (Except.ok url)
          = Except.ok ⟨url, none, none⟩) := by
  refine ⟨?_, ?_, ?_⟩
  · intro scene opts e makeUrl url img hsrc hmode hdata
    simp [generateVideoFromScene, hsrc, audioDataResult, hmode, hdata]
  · intro scene opts speech e url img hsrc hmode
    by_cases hdata : opts.data = ""
    · simp [generateVideoFromScene, hsrc, audioDataResult, hmode, hdata]
    · simp [generateVideoFromScene, hsrc, audioDataResult, hmode, hdata]
  · intro scene opts b64 e url img hsrc hmode hdata
    by_cases hb : b64 = ""
    · simp [generateVideoFromScene, hsrc, audioDataResult, hmode, hdata, hb]
    · simp [generateVideoFromScene, hsrc, audioDataResult, hmode, hdata, hb]

/-- Witness for C10 at a concrete scene and a throwing speech call: the
video result still resolves, with both audio fields null. -/
theorem claimC10_witness :
    generateVideoFromScene (mkRootScene "scene")
        (some { mode := VoiceMode.tts, data := "script", mimeType := "" })
        (Except.error "TTS generation failed: boom") (Except.ok "blob:audio")
        (Except.ok "blob:video")
      = Except.ok ⟨"blob:video", none, none⟩ :=
  claimC10_audioIsolation.1 (mkRootScene "scene")
    { mode := VoiceMode.tts, data := "script", mimeType := "" }
    "TTS generation failed: boom" (Except.ok "blob:audio") "blob:video" "scene"
    rfl rfl (by decide)

/-- C1 counterexample: with a target scene count of 2 but a breakdown
response of 3 prompts, `generateImageSet` completes without throwing and
returns 3 scenes — the validation never compares the returned prompt
count against N. -/
theorem claimC1_counterexample :
    (generateImageSet 2 (some ["a", "b", "c"])
        (fun _ => ImageCallOutcome.image "x")).map List.length = Except.ok 3
    ∧ (3 : Nat) ≠ 2 :=
  ⟨rfl, by omega⟩

/-- C1 (amended): a completing `generateImageSet` invocation returns
exactly one scene per breakdown prompt, in prompt order (the validation
rejects only an empty or malformed prompt list, so the scene count equals
N exactly when the breakdown returned N prompts), and the caller creates
one fresh idle `VideoState` per returned scene, index-aligned with it. -/
theorem claimC1_amended :
    ∀ (sceneCount : Nat) (prompts : List String)
      (outcomes : Nat → ImageCallOutcome),
      prompts ≠ [] →
      ∃ scenes : List StoryboardScene,
        generateImageSet sceneCount (some prompts) outcomes = Except.ok scenes
        ∧ scenes.length = prompts.length
        ∧ (∀ j, scenes[j]? = (prompts[j]?).map (fun p => sceneOfOutcome p (outcomes j)))
        ∧ (prompts.length = sceneCount → scenes.length = sceneCount)
        ∧ (handleGenerateImageItem scenes).2.length
            = (handleGenerateImageItem scenes).1.length
        ∧ (∀ j, j < scenes.length →
            (handleGenerateImageItem scenes).2[j]? = some initialVideoState)
        ∧ initialVideoState.status = "idle" ∧ initialVideoState.clips = [] := by
  intro sceneCount prompts outcomes hne
  refine ⟨(generateImagesFromPrompts prompts outcomes).1, ?_, ?_, ?_, ?_, ?_, ?_, rfl, rfl⟩
  · have hempty : prompts.isEmpty = false := by
      cases prompts with
      | nil => exact absurd rfl hne
      | cons p t => rfl
    simp [generateImageSet, generatePromptsFromBase, hempty]
  · exact generateImagesLoop_length outcomes prompts 0
  · intro j
    rw [generateImagesFromPrompts, generateImagesLoop_getElem]
    simp
  · intro h
    rw [generateImagesFromPrompts, generateImagesLoop_length outcomes prompts 0, h]
  · simp [handleGenerateImageItem]
  · intro j hj
    simp only [handleGenerateImageItem]
    rw [List.getElem?_replicate]
    simp [hj]

/-- Witness for C1 (amended) at a concrete 3-prompt breakdown: the
pipeline returns 3 scenes and 3 fresh idle video states. -/
theorem claimC1_witness :
    ∃ scenes : List StoryboardScene,
      generateImageSet 3 (some ["a", "b", "c"])
          (fun _ => ImageCallOutcome.image "x") = Except.ok scenes
      ∧ scenes.length = (["a", "b", "c"] : List String).length
      ∧ (∀ j : Nat, scenes[j]? = ((["a", "b", "c"] : List String)[j]?).map
          (fun p => sceneOfOutcome p ((fun _ => ImageCallOutcome.image "x") j)))
      ∧ ((["a", "b", "c"] : List String).length = 3 → scenes.length = 3)
      ∧ (handleGenerateImageItem scenes).2.length
          = (handleGenerateImageItem scenes).1.length
      ∧ (∀ j : Nat, j < scenes.length →
          (handleGenerateImageItem scenes).2[j]? = some initialVideoState)
      ∧ initialVideoState.status = "idle" ∧ initialVideoState.clips = [] :=
  claimC1_amended 3 ["a", "b", "c"] (fun _ => ImageCallOutcome.image "x")
    (by decide)

/-- C2: scene deletion removes exactly the cascade closure and remaps
surviving parent references: deleting a root with k angle-children
shrinks the list by k+1; every surviving node that referenced a surviving
parent now references the parent's new position; on the spec's 11-node
example (root at 5 with children 6,7; root at 9 with child at 10),
deleting index 5 leaves the former index-9 root at index 6 with its
child's parent reference remapped to 6; and deleting the sole remaining
angle-child of a root also removes that root, removing exactly 2 nodes
and re-indexing all subsequent nodes. -/
theorem claimC2_deleteCascade :
    (∀ (s : List StoryboardScene) (v : List VideoState) (r : Nat)
        (sc : StoryboardScene), s[r]? = some sc → sc.isCameraAngleFor = none →
      (handleDeleteScene s v r).1.length
        = s.length - (1 + (s.filter (fun x => x.isCameraAngleFor == some r)).length))
    ∧ (∀ (s : List StoryboardScene) (v : List VideoState) (r j p : Nat)
        (scj : StoryboardScene), (s[r]?).isSome → s[j]? = some scj →
        isRemoved s r j = false → scj.isCameraAngleFor = some p →
        isRemoved s r p = false → p < s.length →
        (handleDeleteScene s v r).1[newIndexOf s r j]?
          = some { scj with isCameraAngleFor := some (newIndexOf s r p) })
    ∧ (∀ (s : List StoryboardScene) (v : List VideoState) (c p : Nat)
        (scc scp : StoryboardScene), s[c]? = some scc →
        scc.isCameraAngleFor = some p → s[p]? = some scp →
        scp.isCameraAngleFor = none →
        (s.filter (fun x => x.isCameraAngleFor == some p)).length = 1 →
        (handleDeleteScene s v c).1.length = s.length - 2)
    ∧ (handleDeleteScene exC2a (List.replicate 11 initialVideoState) 5).1
        = [mkRootScene "0", mkRootScene "1", mkRootScene "2", mkRootScene "3",
           mkRootScene "4", mkRootScene "8", mkRootScene "9", mkChildScene "10" 6]
    ∧ (handleDeleteScene exC2b (List.replicate 5 initialVideoState) 2).1
        = [mkRootScene "0", mkRootScene "3", mkChildScene "4" 1] := by
  refine ⟨?_, ?_, ?_, by decide, by decide⟩
  · intro s v r sc hr hroot
    rw [handleDeleteScene_fst_length s v r (by simp [hr]), keptIndices_length,
      removedCount_of_root s r sc hr hroot]
  · exact fun s v r j p scj => handleDeleteScene_remap s v r j p scj
  · exact fun s v c p scc scp => handleDeleteScene_soleChild_length s v c p scc scp

/-- Witness for C2 at a concrete tree: deleting the childless root at
index 0 of the 5-node fixture removes exactly one node. -/
theorem claimC2_witness :
    (handleDeleteScene exC2b (List.replicate 5 initialVideoState) 0).1.length = 4 := by
  have h := claimC2_deleteCascade.1 exC2b (List.replicate 5 initialVideoState) 0
    (mkRootScene "0") (by decide) (by decide)
  rw [h]
  decide

/-- C3 counterexample: the angle handler splices the new nodes at
`sceneIndex + 1`, i.e. immediately after the root and BEFORE its
pre-existing angle-children (the claim says after them), and a
pre-existing node past the insertion point whose parent reference does
not exceed the root index keeps that reference un-incremented (the claim
says every such node's reference is incremented by m). -/
theorem claimC3_counterexample :
    ((handleConfirmAngleGeneration exC3a (List.replicate 2 initialVideoState) 0
        [mkRootScene "n"]).1[1]? = some (mkChildScene "n" 0)
    ∧ (handleConfirmAngleGeneration exC3a (List.replicate 2 initialVideoState) 0
        [mkRootScene "n"]).1[2]? = some (mkChildScene "b" 0))
    ∧ (handleConfirmAngleGeneration exC3b (List.replicate 5 initialVideoState) 2
        [mkRootScene "n"]).1[4]? = some (mkChildScene "3" 2) := by
  decide

/-- C3 (amended): a successful camera-angle generation with m new scenes
for the root at index r splices them at indices r+1..r+m (immediately
after the root, before any pre-existing angle-children), each tagged with
parent reference r; every pre-existing node at an old index past r moves
to old index + m and has its parent reference incremented by m exactly
when that reference exceeded r (independent of the node's position);
the scene list grows by exactly m; and on the 5-node all-root example,
requesting two angles on index 2 inserts exactly 2 nodes at indices 3
and 4, each with parent reference 2. -/
theorem claimC3_amended :
    (∀ (s : List StoryboardScene) (v : List VideoState) (r : Nat)
        (nw : List StoryboardScene),
      (handleConfirmAngleGeneration s v r nw).1.length = s.length + nw.length)
    ∧ (∀ (s : List StoryboardScene) (v : List VideoState) (r k : Nat)
        (nw : List StoryboardScene) (sc : StoryboardScene),
        r < s.length → nw[k]? = some sc →
        (handleConfirmAngleGeneration s v r nw).1[r + 1 + k]?
          = some { sc with isCameraAngleFor := some r })
    ∧ (∀ (s : List StoryboardScene) (v : List VideoState) (r j p : Nat)
        (nw : List StoryboardScene) (sc : StoryboardScene),
        r < j → s[j]? = some sc → sc.isCameraAngleFor = some p →
        (handleConfirmAngleGeneration s v r nw).1[j + nw.length]?
          = some (if r < p then { sc with isCameraAngleFor := some (p + nw.length) }
              else sc))
    ∧ ((handleConfirmAngleGeneration exC3c (List.replicate 5 initialVideoState) 2
          [mkRootScene "front", mkRootScene "back"]).1
        = [mkRootScene "0", mkRootScene "1", mkRootScene "2",
           mkChildScene "front" 2, mkChildScene "back" 2, mkRootScene "3",
           mkRootScene "4"]) := by
  refine ⟨?_, ?_, ?_, by decide⟩
  · exact fun s v r nw => handleConfirmAngle_fst_length s v r nw
  · intro s v r k nw sc hr hk
    rw [handleConfirmAngle_fst_getElem?_ne s v r nw (r + 1 + k) (by omega)]
    exact spliceAngles_getElem?_new s r nw k sc hr hk
  · intro s v r j p nw sc hrj hj hp
    rw [handleConfirmAngle_fst_getElem?_ne s v r nw (j + nw.length) (by omega)]
    rw [spliceAngles_getElem?_old_after s r nw j sc hj hrj, hp]

/-- Witness for C3 (amended) at the concrete 5-node example: the first
new angle node lands at index 3 tagged with parent reference 2. -/
theorem claimC3_witness :
    (handleConfirmAngleGeneration exC3c (List.replicate 5 initialVideoState) 2
        [mkRootScene "front", mkRootScene "back"]).1[2 + 1 + 0]?
      = some { mkRootScene "front" with isCameraAngleFor := some 2 } :=
  claimC3_amended.2.1 exC3c (List.replicate 5 initialVideoState) 2 0
    [mkRootScene "front", mkRootScene "back"] (mkRootScene "front")
    (by decide) (by decide)

/-- C4: `videoStates.length = imageSet.length` holds at creation and is
preserved by every structural mutation: the caller creates one video
state per scene, and scene deletion, camera-angle insertion and
extend-from-last-frame insertion each apply the identical splice to the
video-state list in the same state update. -/
theorem claimC4_alignment :
    (∀ storyboard : List StoryboardScene,
      (handleGenerateImageItem storyboard).2.length
        = (handleGenerateImageItem storyboard).1.length)
    ∧ (∀ (s : List StoryboardScene) (v : List VideoState) (i : Nat),
        v.length = s.length →
        (handleDeleteScene s v i).2.length = (handleDeleteScene s v i).1.length)
    ∧ (∀ (s : List StoryboardScene) (v : List VideoState) (i : Nat)
        (nw : List StoryboardScene), v.length = s.length →
        (handleConfirmAngleGeneration s v i nw).2.length
          = (handleConfirmAngleGeneration s v i nw).1.length)
    ∧ (∀ (s : List StoryboardScene) (v : List VideoState) (i : Nat) (f : String),
        v.length = s.length →
        (handleExtendFromLastFrame s v i f).2.length
          = (handleExtendFromLastFrame s v i f).1.length) := by
  refine ⟨?_, ?_, ?_, ?_⟩
  · intro storyboard
    simp [handleGenerateImageItem]
  · intro s v i hlen
    cases hex : s[i]? with
    | none => simp [handleDeleteScene, hex, hlen]
    | some sc =>
      rw [handleDeleteScene_snd_length s v i (by simp [hex]) hlen,
        handleDeleteScene_fst_length s v i (by simp [hex])]
  · intro s v i nw hlen
    rw [handleConfirmAngle_snd_length, handleConfirmAngle_fst_length, hlen]
  · intro s v i f hlen
    rw [handleExtend_snd_length, handleExtend_fst_length, hlen]

/-- Witness for C4 at a concrete cascading deletion: both lists end up
with 3 entries. -/
theorem claimC4_witness :
    (handleDeleteScene exC2b (List.replicate 5 initialVideoState) 2).2.length
      = (handleDeleteScene exC2b (List.replicate 5 initialVideoState) 2).1.length :=
  claimC4_alignment.2.1 exC2b (List.replicate 5 initialVideoState) 2 (by decide)

/-- C5: the tree-shape invariant (every parent reference points at a
currently-existing root) holds on the 3-node fixture but is violated
after `handleExtendFromLastFrame` on scene 0: the handler splices the new
node at index 1 without remapping any parent reference, so the child that
referenced the root formerly at index 1 now points at the freshly
inserted angle-child node, which is not a root. -/
theorem claimC5_extendBreaksInvariant :
    treeInvariant exC5 = true
    ∧ treeInvariant
        (handleExtendFromLastFrame exC5 (List.replicate 3 initialVideoState) 0
          "frame").1 = false
    ∧ (handleExtendFromLastFrame exC5 (List.replicate 3 initialVideoState) 0
        "frame").1[3]? = some (mkChildScene "c" 1)
    ∧ isRootAt
        (handleExtendFromLastFrame exC5 (List.replicate 3 initialVideoState) 0
          "frame").1 1 = false := by
  decide

end Studio
